import Mathlib

/-! Verification of the rotary-encoder Blockly extension (src/definition.js).

The source registers five block schemas under Blockly.Blocks and five Python
code emitters under Blockly.Python, reserves one identifier, and registers a
one-time import line in the generator definitions map. Below, the schemas
become plain data, the emitters become functions on strings, and the mutable
definitions map of the generator is threaded explicitly as an association
list. -/

set_option maxRecDepth 8192

namespace Rotary

/-- Connection and output declarations of a block schema, as set by
setPreviousStatement, setNextStatement and setOutput inside each
Blockly.Blocks init function. The decorative colour, tooltip and help URL
carry no behavioural contract and are omitted. -/
structure BlockShape where
  acceptsPrevious : Bool
  acceptsNext : Bool
  producesValue : Bool
  outputCheck : Option String

/-- Dropdown options of the clk field of the initialise_rotary_encoder block
(src/definition.js line 5): ordered (display label, encoded value) pairs. -/
def clk_options : List (String × String) :=
  [("P0", "pin0.pin"), ("P1", "pin1.pin"), ("P2", "pin2.pin"), ("P3", "pin3.pin"),
   ("P4", "pin4.pin"), ("P6", "pin6.pin"), ("P7", "pin7.pin"), ("P8", "pin8.pin"),
   ("P9", "pin9.pin"), ("P10", "pin10.pin"), ("P11", "pin11.pin"), ("P12", "pin12.pin"),
   ("P13", "pin13.pin"), ("P14", "pin14.pin"), ("P15", "pin15.pin"), ("P16", "pin16.pin")]

/-- Dropdown options of the dt field of the initialise_rotary_encoder block
(src/definition.js line 7), written out exactly as in the source. -/
def dt_options : List (String × String) :=
  [("P0", "pin0.pin"), ("P1", "pin1.pin"), ("P2", "pin2.pin"), ("P3", "pin3.pin"),
   ("P4", "pin4.pin"), ("P6", "pin6.pin"), ("P7", "pin7.pin"), ("P8", "pin8.pin"),
   ("P9", "pin9.pin"), ("P10", "pin10.pin"), ("P11", "pin11.pin"), ("P12", "pin12.pin"),
   ("P13", "pin13.pin"), ("P14", "pin14.pin"), ("P15", "pin15.pin"), ("P16", "pin16.pin")]

/-- Dropdown options of the mode field of the rotary_mode block
(src/definition.js line 48). The first encoded value carries a leading space
exactly as written in the source. -/
def mode_options : List (String × String) :=
  [("không giới hạn", " RotaryIRQ.RANGE_UNBOUNDED"),
   ("reset khi quay tới max", "RotaryIRQ.RANGE_WRAP"),
   ("dừng tăng khi quay tới max", "RotaryIRQ.RANGE_BOUNDED")]

/-- Shape of the initialise_rotary_encoder block (lines 1 to 14): previous and
next statement connections, no value output. -/
def initialise_rotary_encoder_shape : BlockShape := ⟨true, true, false, none⟩

/-- Shape of the get_value block (lines 16 to 25): a Number value output via
setOutput, no previous or next statement connection. -/
def get_value_shape : BlockShape := ⟨false, false, true, some ("Number")⟩

/-- Shape of the set_range_value block (lines 27 to 42). -/
def set_range_value_shape : BlockShape := ⟨true, true, false, none⟩

/-- Shape of the rotary_mode block (lines 44 to 55). -/
def rotary_mode_shape : BlockShape := ⟨true, true, false, none⟩

/-- Shape of the set_current_value block (lines 57 to 68). -/
def set_current_value_shape : BlockShape := ⟨true, true, false, none⟩

/-- The single addReservedWords call at module load (line 70) passes the one
word rotary. -/
def reservedWords : List String := ["rotary"]

/-- Precedence tag ORDER_ATOMIC of the host Blockly Python generator, value 0:
highest precedence, a fragment so tagged is never parenthesized when inlined. -/
def ORDER_ATOMIC : Nat := 0

/-- Precedence tag ORDER_NONE of the host Blockly Python generator, value 99:
lowest (unknown) precedence; the host wraps a fragment so tagged in parentheses
when inlining it into a context of any higher precedence. -/
def ORDER_NONE : Nat := 99

/-- Assignment into the generator definitions map (a JS object used as a map,
modelled as an association list in insertion order): assigning to an existing
key overwrites its value in place, a new key is appended at the end. -/
def setDefinition (defs : List (String × String)) (k v : String) :
    List (String × String) :=
  if defs.any (fun p => p.1 == k) then
    defs.map (fun p => if p.1 == k then (k, v) else p)
  else defs ++ [(k, v)]

namespace Python

/-- Emitter for initialise_rotary_encoder (lines 72 to 79): stores the import
line under the key import_rotary in the definitions map and returns the
construction statement with the two dropdown values concatenated in. The
definitions map is threaded explicitly; the result pairs the new map with the
emitted code. -/
def initialise_rotary_encoder (defs : List (String × String)) (clk dt : String) :
    List (String × String) × String :=
  (setDefinition defs ("import_rotary") ("from rotary import RotaryIRQ"),
   "rotary_encoder = RotaryIRQ(pin_num_clk=" ++ clk ++ ", pin_num_dt=" ++ dt ++
     ", min_val=0, max_val=10, reverse=True, range_mode=RotaryIRQ.RANGE_UNBOUNDED, pull_up=False)\n")

/-- Emitter for get_value (lines 81 to 85): an expression fragment paired with
the order tag the source returns, namely ORDER_NONE. -/
def get_value : String × Nat := ("rotary_encoder.value()", ORDER_NONE)

/-- Emitter for set_range_value (lines 87 to 93), applied to the two resolved
child expression strings. -/
def set_range_value (vmin vmax : String) : String :=
  "rotary_encoder.set(min_val=" ++ vmin ++ ", max_val=" ++ vmax ++
    ", range_mode=RotaryIRQ.RANGE_WRAP)\n"

/-- Emitter for rotary_mode (lines 95 to 100), applied to the encoded value of
the mode dropdown. -/
def rotary_mode (mode : String) : String :=
  "rotary_encoder.set(range_mode=" ++ mode ++ ")\n"

/-- Emitter for set_current_value (lines 102 to 107), applied to the resolved
child expression string. -/
def set_current_value (v : String) : String :=
  "rotary_encoder.set(value=" ++ v ++ ")\n"

end Python

/-- The preamble lines flushed from the definitions map into the final output,
one value per entry in insertion order. -/
def flushDefinitions (defs : List (String × String)) : List String :=
  defs.map Prod.snd

/-- Run the initialise_rotary_encoder emitter once per (clk, dt) pair in the
list, threading the definitions map and discarding the statement text. -/
def runInits : List (String × String) → List (String × String) → List (String × String)
  | [], defs => defs
  | p :: rest, defs => runInits rest (Python.initialise_rotary_encoder defs p.1 p.2).1

/-- A statement fragment whose last character is a line break. -/
def newlineTerminated (s : String) : Prop := ∃ t, s = t ++ "\n"

/-- Number of line breaks occurring in a string. -/
def countNewlines (s : String) : Nat := s.data.count '\n'

lemma countNewlines_append (a b : String) :
    countNewlines (a ++ b) = countNewlines a + countNewlines b := by
  simp [countNewlines, String.data_append, List.count_append]

lemma newlineTerminated_append (x c : String) :
    newlineTerminated (x ++ (c ++ "\n")) :=
  ⟨x ++ c, (String.append_assoc x c ("\n")).symm⟩

lemma exists_tail2 (r a0 m c : String) :
    ∃ rest, ((r ++ a0) ++ m) ++ c = r ++ rest :=
  ⟨a0 ++ (m ++ c), by simp only [String.append_assoc]⟩

lemma exists_tail4 (r a0 b c : String) (x y : String) :
    ∃ rest, ((((r ++ a0) ++ x) ++ b) ++ y) ++ c = r ++ rest :=
  ⟨a0 ++ (x ++ (b ++ (y ++ c))), by simp only [String.append_assoc]⟩

lemma runInits_fixed (ps : List (String × String)) :
    runInits ps [(("import_rotary" : String), ("from rotary import RotaryIRQ" : String))] =
      [("import_rotary", "from rotary import RotaryIRQ")] := by
  induction ps with
  | nil => rfl
  | cons p rest ih => exact ih

/-- C1: for every clk and dt dropdown selection, the InitEncoder emitter returns
exactly the RotaryIRQ construction statement with the two selected encoded pin
values substituted verbatim and the fixed defaults (min 0, max 10, reversed,
unbounded range mode, pull-up disabled), terminated by a newline. -/
theorem c1_initialise_statement (defs : List (String × String)) (clk dt : String)
    (_hclk : clk ∈ clk_options.map Prod.snd) (_hdt : dt ∈ dt_options.map Prod.snd) :
    (Python.initialise_rotary_encoder defs clk dt).2 =
      "rotary_encoder = RotaryIRQ(pin_num_clk=" ++ clk ++ ", pin_num_dt=" ++ dt ++
        ", min_val=0, max_val=10, reverse=True, range_mode=RotaryIRQ.RANGE_UNBOUNDED, pull_up=False)\n" ∧
    newlineTerminated (Python.initialise_rotary_encoder defs clk dt).2 :=
  ⟨rfl, newlineTerminated_append _
    (", min_val=0, max_val=10, reverse=True, range_mode=RotaryIRQ.RANGE_UNBOUNDED, pull_up=False)")⟩

/-- C1 witness at the selections P0 for clk and P1 for dt. -/
theorem c1_witness :
    ("pin0.pin") ∈ clk_options.map Prod.snd ∧
    ("pin1.pin") ∈ dt_options.map Prod.snd ∧
    (Python.initialise_rotary_encoder [] ("pin0.pin") ("pin1.pin")).2 =
      "rotary_encoder = RotaryIRQ(pin_num_clk=pin0.pin, pin_num_dt=pin1.pin, min_val=0, max_val=10, reverse=True, range_mode=RotaryIRQ.RANGE_UNBOUNDED, pull_up=False)\n" := by
  refine ⟨by decide, by decide, ?_⟩
  have h := c1_initialise_statement [] ("pin0.pin") ("pin1.pin") (by decide) (by decide)
  rw [h.1]
  decide

/-- C2 counterexample: the ReadValue emitter pairs its fragment with ORDER_NONE
(99), which is not the atomic tag ORDER_ATOMIC (0); so the returned tag is not
the tag that guarantees inlining without parentheses. -/
theorem c2_counterexample :
    Python.get_value = ("rotary_encoder.value()", 99) ∧
    Python.get_value.2 = ORDER_NONE ∧
    Python.get_value.2 ≠ ORDER_ATOMIC := by decide

/-- C2 amended: the ReadValue emitter returns, for every input, the bare
no-argument read call on the reserved handle paired with the ORDER_NONE
precedence tag (lowest, unknown precedence, value 99) rather than ORDER_ATOMIC,
so the host may wrap the fragment in parentheses when inlining it. -/
theorem c2_get_value_order_none :
    Python.get_value = ("rotary_encoder.value()", ORDER_NONE) := rfl

/-- C3: for every pair of resolved min and max child expression strings, the
SetRange emitter returns exactly the configuration statement with both values
substituted verbatim and the fixed wrap range mode, terminated by a newline;
the wrap-mode tail is the same for all inputs. -/
theorem c3_set_range_statement (vmin vmax : String) :
    Python.set_range_value vmin vmax =
      "rotary_encoder.set(min_val=" ++ vmin ++ ", max_val=" ++ vmax ++
        ", range_mode=RotaryIRQ.RANGE_WRAP)\n" ∧
    newlineTerminated (Python.set_range_value vmin vmax) ∧
    (∃ u, Python.set_range_value vmin vmax =
      u ++ (", range_mode=RotaryIRQ.RANGE_WRAP)" ++ "\n")) :=
  ⟨rfl, newlineTerminated_append _ (", range_mode=RotaryIRQ.RANGE_WRAP)"),
   ⟨"rotary_encoder.set(min_val=" ++ vmin ++ ", max_val=" ++ vmax, rfl⟩⟩

/-- C4: for every mode dropdown selection, the SetMode emitter returns a
configuration call on the handle passing only the range_mode argument, with the
chosen encoded value substituted verbatim in that argument position, terminated
by a newline. -/
theorem c4_rotary_mode_statement (mode : String)
    (_h : mode ∈ mode_options.map Prod.snd) :
    Python.rotary_mode mode = "rotary_encoder.set(range_mode=" ++ mode ++ ")\n" ∧
    newlineTerminated (Python.rotary_mode mode) :=
  ⟨rfl, newlineTerminated_append _ (")")⟩

/-- C4 witness at the wrap-mode selection. -/
theorem c4_witness :
    ("RotaryIRQ.RANGE_WRAP") ∈ mode_options.map Prod.snd ∧
    Python.rotary_mode ("RotaryIRQ.RANGE_WRAP") =
      "rotary_encoder.set(range_mode=RotaryIRQ.RANGE_WRAP)\n" := by
  refine ⟨by decide, ?_⟩
  have h := c4_rotary_mode_statement ("RotaryIRQ.RANGE_WRAP") (by decide)
  rw [h.1]
  decide

/-- C5: the InitEncoder emitter registers its import line under the single
stable key import_rotary, so running it any positive number of times within one
pass (in particular two or more times) leaves the definitions map with exactly
that one entry and exactly one copy of the import line in the flushed
preamble. -/
theorem c5_import_once (ps : List (String × String)) (h : 1 ≤ ps.length) :
    runInits ps [] = [("import_rotary", "from rotary import RotaryIRQ")] ∧
    (flushDefinitions (runInits ps [])).count ("from rotary import RotaryIRQ") = 1 := by
  cases ps with
  | nil => exact absurd h (by decide)
  | cons p rest =>
    have hstate : runInits (p :: rest) [] =
        [("import_rotary", "from rotary import RotaryIRQ")] := runInits_fixed rest
    exact ⟨hstate, by rw [hstate]; decide⟩

/-- C5 witness: two runs of the emitter leave a single import line. -/
theorem c5_witness :
    1 ≤ ([(("pin0.pin" : String), ("pin1.pin" : String)),
          (("pin2.pin" : String), ("pin3.pin" : String))]).length ∧
    (flushDefinitions
      (runInits [("pin0.pin", "pin1.pin"), ("pin2.pin", "pin3.pin")] [])).count
      ("from rotary import RotaryIRQ") = 1 := by
  refine ⟨by decide, ?_⟩
  exact (c5_import_once [("pin0.pin", "pin1.pin"), ("pin2.pin", "pin3.pin")] (by decide)).2

/-- C6 counterexample: exactly one identifier is reserved, but it is the word
rotary, while the identifier bound by the InitEncoder statement (the text
before the first space of the emitted statement) is rotary_encoder, a different
name. -/
theorem c6_counterexample :
    reservedWords = ["rotary"] ∧
    ((Python.initialise_rotary_encoder [] ("pin0.pin") ("pin1.pin")).2.data.takeWhile
      (fun c => c != ' ')) = ("rotary_encoder").data ∧
    ("rotary" : String) ≠ "rotary_encoder" := by decide

/-- C6 amended: at module load exactly one identifier is reserved, the module
name rotary; the peripheral handle heading every emitted statement and
expression is rotary_encoder, which is not the reserved name. -/
theorem c6_reserved_word (defs : List (String × String)) (clk dt : String) :
    reservedWords = ["rotary"] ∧
    ("rotary" : String) ≠ "rotary_encoder" ∧
    (∃ rest, (Python.initialise_rotary_encoder defs clk dt).2 =
      "rotary_encoder" ++ rest) ∧
    (∃ rest, Python.get_value.1 = "rotary_encoder" ++ rest) ∧
    (∀ a b, ∃ rest, Python.set_range_value a b = "rotary_encoder" ++ rest) ∧
    (∀ m, ∃ rest, Python.rotary_mode m = "rotary_encoder" ++ rest) ∧
    (∀ v, ∃ rest, Python.set_current_value v = "rotary_encoder" ++ rest) := by
  refine ⟨rfl, by decide, ?_, ⟨".value()", rfl⟩, ?_, ?_, ?_⟩
  · exact exists_tail4 ("rotary_encoder") (" = RotaryIRQ(pin_num_clk=")
      (", pin_num_dt=")
      (", min_val=0, max_val=10, reverse=True, range_mode=RotaryIRQ.RANGE_UNBOUNDED, pull_up=False)\n")
      clk dt
  · exact fun a b => exists_tail4 ("rotary_encoder") (".set(min_val=")
      (", max_val=") (", range_mode=RotaryIRQ.RANGE_WRAP)\n") a b
  · exact fun m => exists_tail2 ("rotary_encoder") (".set(range_mode=") m (")\n")
  · exact fun v => exists_tail2 ("rotary_encoder") (".set(value=") v (")\n")

lemma countNewlines_init (defs : List (String × String)) (clk dt : String)
    (h1 : countNewlines clk = 0) (h2 : countNewlines dt = 0) :
    countNewlines (Python.initialise_rotary_encoder defs clk dt).2 = 1 := by
  show countNewlines ("rotary_encoder = RotaryIRQ(pin_num_clk=" ++ clk ++
    ", pin_num_dt=" ++ dt ++
    ", min_val=0, max_val=10, reverse=True, range_mode=RotaryIRQ.RANGE_UNBOUNDED, pull_up=False)\n") = 1
  simp only [countNewlines_append, h1, h2]
  decide

lemma countNewlines_set_range (vmin vmax : String)
    (h1 : countNewlines vmin = 0) (h2 : countNewlines vmax = 0) :
    countNewlines (Python.set_range_value vmin vmax) = 1 := by
  show countNewlines ("rotary_encoder.set(min_val=" ++ vmin ++ ", max_val=" ++ vmax ++
    ", range_mode=RotaryIRQ.RANGE_WRAP)\n") = 1
  simp only [countNewlines_append, h1, h2]
  decide

lemma countNewlines_rotary_mode (mode : String) (h : countNewlines mode = 0) :
    countNewlines (Python.rotary_mode mode) = 1 := by
  show countNewlines ("rotary_encoder.set(range_mode=" ++ mode ++ ")\n") = 1
  simp only [countNewlines_append, h]
  decide

lemma countNewlines_set_current (v : String) (h : countNewlines v = 0) :
    countNewlines (Python.set_current_value v) = 1 := by
  show countNewlines ("rotary_encoder.set(value=" ++ v ++ ")\n") = 1
  simp only [countNewlines_append, h]
  decide

/-- C7: every statement-producing emitter, for all resolved inputs, returns a
fragment whose last character is a line break; and when the resolved inputs are
themselves free of line breaks, each fragment contains exactly one line break
(its own terminator), so plain concatenation of such fragments yields one line
per statement with no inserted separators. -/
theorem c7_statements_newline_terminated
    (defs : List (String × String)) (clk dt vmin vmax mode v : String)
    (hclk : countNewlines clk = 0) (hdt : countNewlines dt = 0)
    (hmin : countNewlines vmin = 0) (hmax : countNewlines vmax = 0)
    (hmode : countNewlines mode = 0) (hv : countNewlines v = 0) :
    newlineTerminated (Python.initialise_rotary_encoder defs clk dt).2 ∧
    newlineTerminated (Python.set_range_value vmin vmax) ∧
    newlineTerminated (Python.rotary_mode mode) ∧
    newlineTerminated (Python.set_current_value v) ∧
    countNewlines (Python.initialise_rotary_encoder defs clk dt).2 = 1 ∧
    countNewlines (Python.set_range_value vmin vmax) = 1 ∧
    countNewlines (Python.rotary_mode mode) = 1 ∧
    countNewlines (Python.set_current_value v) = 1 :=
  ⟨newlineTerminated_append _
      (", min_val=0, max_val=10, reverse=True, range_mode=RotaryIRQ.RANGE_UNBOUNDED, pull_up=False)"),
   newlineTerminated_append _ (", range_mode=RotaryIRQ.RANGE_WRAP)"),
   newlineTerminated_append _ (")"),
   newlineTerminated_append _ (")"),
   countNewlines_init defs clk dt hclk hdt,
   countNewlines_set_range vmin vmax hmin hmax,
   countNewlines_rotary_mode mode hmode,
   countNewlines_set_current v hv⟩

/-- C7 witness at concrete newline-free inputs. -/
theorem c7_witness :
    countNewlines ("0") = 0 ∧
    countNewlines (Python.set_range_value ("0") ("100")) = 1 ∧
    countNewlines (Python.set_current_value ("5")) = 1 ∧
    newlineTerminated (Python.rotary_mode ("RotaryIRQ.RANGE_WRAP")) := by
  have h := c7_statements_newline_terminated [] ("pin0.pin") ("pin1.pin") ("0") ("100")
    ("RotaryIRQ.RANGE_WRAP") ("5") (by decide) (by decide) (by decide) (by decide)
    (by decide) (by decide)
  exact ⟨by decide, h.2.2.2.2.2.1, h.2.2.2.2.2.2.2, h.2.2.1⟩

/-- C8: the four statement blocks declare both a previous and a next statement
connection and no value output; the ReadValue block declares a Number value
output and accepts neither a previous nor a next statement connection. -/
theorem c8_schema_connections :
    initialise_rotary_encoder_shape.acceptsPrevious = true ∧
    initialise_rotary_encoder_shape.acceptsNext = true ∧
    initialise_rotary_encoder_shape.producesValue = false ∧
    set_range_value_shape.acceptsPrevious = true ∧
    set_range_value_shape.acceptsNext = true ∧
    set_range_value_shape.producesValue = false ∧
    rotary_mode_shape.acceptsPrevious = true ∧
    rotary_mode_shape.acceptsNext = true ∧
    rotary_mode_shape.producesValue = false ∧
    set_current_value_shape.acceptsPrevious = true ∧
    set_current_value_shape.acceptsNext = true ∧
    set_current_value_shape.producesValue = false ∧
    get_value_shape.producesValue = true ∧
    get_value_shape.outputCheck = some ("Number") ∧
    get_value_shape.acceptsPrevious = false ∧
    get_value_shape.acceptsNext = false := by decide

/-- C9: the first SetMode option (label không giới hạn, the unbounded mode) has
an encoded value beginning with a space character, so selecting it makes the
emitted statement carry a space between the equals sign and the constant; the
other two encoded values do not begin with a space. -/
theorem c9_unbounded_leading_space :
    mode_options.map Prod.snd =
      [" RotaryIRQ.RANGE_UNBOUNDED", "RotaryIRQ.RANGE_WRAP", "RotaryIRQ.RANGE_BOUNDED"] ∧
    mode_options.map Prod.fst =
      ["không giới hạn", "reset khi quay tới max", "dừng tăng khi quay tới max"] ∧
    (" RotaryIRQ.RANGE_UNBOUNDED").data.head? = some ' ' ∧
    Python.rotary_mode (" RotaryIRQ.RANGE_UNBOUNDED") =
      "rotary_encoder.set(range_mode= RotaryIRQ.RANGE_UNBOUNDED)\n" ∧
    ("RotaryIRQ.RANGE_WRAP").data.head? ≠ some ' ' ∧
    ("RotaryIRQ.RANGE_BOUNDED").data.head? ≠ some ' ' := by decide

/-- C10: the clk and dt dropdowns carry the same ordered sixteen-option list,
with labels P0 to P4 and P6 to P16 (P5 absent), each label PN mapped to the
encoded value pinN.pin for the same N, and the labels are pairwise distinct. -/
theorem c10_pin_options :
    dt_options = clk_options ∧
    clk_options =
      ((List.range 17).filter (fun n => n != 5)).map
        (fun n => ("P" ++ Nat.repr n, "pin" ++ Nat.repr n ++ ".pin")) ∧
    clk_options.length = 16 ∧
    ("P5") ∉ clk_options.map Prod.fst ∧
    (clk_options.map Prod.fst).Nodup := by decide

end Rotary
